import Mathlib

/-!
Verification of the Discord notifier module (`notify/discord/discord.go`)
of the easeprobe repository.

The Go source is shallowly embedded below.  Pure rendering functions become
Lean functions on the same data; the HTTP client is abstracted as an explicit
`world : HTTPRequest → Except String HTTPResponse` parameter; the side effects
of the entry points (HTTP posts and log lines) are returned as an explicit
trace (`List Effect`).  Machine integers (Go `int`, `int64`,
`time.Duration`) are modelled as `Int`; none of the values involved approach
the 64-bit boundary.

The `probe` package is not part of the sources under analysis (only
`discord.go` is); the pieces of it that `discord.go` consumes (`probe.Result`,
`probe.Status`, `probe.Prober`, `SLA`, `StatStatusText`, and the Go standard
`time` formatting it calls) are modelled from the specification, as flagged by
doc comments below.
-/

set_option autoImplicit false

/-! ## Go `time` model (modelled from the spec: the Go standard library is not
part of the analysed sources; only the behaviour that `discord.go` relies on is
embedded: `time.Time` as an instant with a zone offset, `UTC()`, RFC 3339
formatting, `time.Duration` with `Round` and `String`). -/

namespace gotime

/-- Go `time.Time`, modelled from the spec as an instant (`sec` seconds and
`nsec` nanoseconds since the Unix epoch) carried together with the zone
`offset` (seconds east of UTC) used for display. -/
structure GoTime where
  sec : Int
  nsec : Nat
  offset : Int
  deriving DecidableEq, Inhabited

/-- Go `Time.UTC()`: same instant, zone offset zero. -/
def GoTime.UTC (t : GoTime) : GoTime := { t with offset := 0 }

/-- The instant a `GoTime` denotes, independent of its display zone. -/
def GoTime.instant (t : GoTime) : Int × Nat := (t.sec, t.nsec)

/-- The Go `time.RFC3339` layout constant. -/
def rfc3339Layout : String := "2006-01-02T15:04:05Z07:00"

/-- The character for a decimal digit `n < 10`. -/
def digitChar (n : Nat) : Char := Char.ofNat (48 + n)

/-- Decimal value of a digit character. -/
def dv (c : Char) : Nat := c.toNat - 48

/-- Two-digit zero-padded decimal rendering. -/
def pad2l (n : Nat) : List Char := [digitChar (n / 10 % 10), digitChar (n % 10)]

/-- Four-digit zero-padded decimal rendering. -/
def pad4l (n : Nat) : List Char :=
  [digitChar (n / 1000 % 10), digitChar (n / 100 % 10),
   digitChar (n / 10 % 10), digitChar (n % 10)]

/-- Broken-down civil date. -/
structure CivilDate where
  y : Nat
  m : Nat
  d : Nat
  deriving DecidableEq, Inhabited

/-- Civil date from a count of days since 1970-01-01 (proleptic Gregorian
calendar).  The year of era is computed by stripping 100-year, 4-year and
1-year cycles with the `n - n >> 2` capping trick of Go's `time.absDate`;
the month/day of a March-based day-of-year follow the standard `(5*doy+2)/153`
formula. -/
def civilFromDays (days : Nat) : CivilDate :=
  let z := days + 719468
  let era := z / 146097
  let doe := z % 146097
  let n := doe / 36524
  let n100 := n - n / 4
  let d1 := doe - 36524 * n100
  let n4 := d1 / 1461
  let d2 := d1 - 1461 * n4
  let m0 := d2 / 365
  let n1 := m0 - m0 / 4
  let doy := d2 - 365 * n1
  let yoe := 100 * n100 + 4 * n4 + n1
  let y := yoe + era * 400
  let mp := (5 * doy + 2) / 153
  let d := doy - (153 * mp + 2) / 5 + 1
  let m := if mp < 10 then mp + 3 else mp - 9
  { y := if m ≤ 2 then y + 1 else y, m := m, d := d }

/-- Days since 1970-01-01 of a civil date (inverse of `civilFromDays`). -/
def daysFromCivil (y m d : Nat) : Int :=
  let yy := if m ≤ 2 then y - 1 else y
  let era := yy / 400
  let yoe := yy - era * 400
  let mp := if 2 < m then m - 3 else m + 9
  let doy := (153 * mp + 2) / 5 + d - 1
  let doe := yoe * 365 + yoe / 4 - yoe / 100 + doy
  ((era * 146097 + doe : Nat) : Int) - 719468

/-- Zone suffix of the RFC 3339 layout (`Z07:00`): `Z` for UTC, otherwise a
signed `hh:mm` offset. -/
def zoneList (off : Int) : List Char :=
  if off = 0 then ['Z']
  else (if off < 0 then '-' else '+') ::
    (pad2l (off.natAbs / 3600) ++ ':' :: pad2l (off.natAbs / 60 % 60))

/-- RFC 3339 rendering of a `GoTime` (Go `Time.Format(time.RFC3339)`),
for instants between 1970 and the year 9999. -/
def rfc3339List (t : GoTime) : List Char :=
  let w := (t.sec + t.offset).toNat
  let days := w / 86400
  let sod := w % 86400
  let cd := civilFromDays days
  pad4l cd.y ++ '-' :: pad2l cd.m ++ '-' :: pad2l cd.d ++
    'T' :: pad2l (sod / 3600) ++ ':' :: pad2l (sod / 60 % 60) ++
    ':' :: pad2l (sod % 60) ++ zoneList t.offset

/-- Modelled from the spec: formatting with a caller-supplied layout
(`Result.TimeFormat`).  Go's general layout engine is out of scope; only the
RFC 3339 layout is exercised by the analysed code paths. -/
def formatFallback (t : GoTime) (_layout : String) : String :=
  String.mk (rfc3339List t)

/-- Go `Time.Format`: RFC 3339 is embedded precisely, other layouts fall back
to `formatFallback`. -/
def GoTime.Format (t : GoTime) (layout : String) : String :=
  if layout = rfc3339Layout then String.mk (rfc3339List t)
  else formatFallback t layout

/-- Parser for the zone suffix of an RFC 3339 timestamp, returning the zone
offset in seconds. -/
def parseZoneL : List Char → Option Int
  | [c] => if c = 'Z' then some 0 else none
  | [sg, h1, h2, c0, m1, m2] =>
    if (sg = '+' ∨ sg = '-') ∧ h1.isDigit ∧ h2.isDigit ∧ c0 = ':' ∧
        m1.isDigit ∧ m2.isDigit then
      let v : Int := (dv h1 * 10 + dv h2) * 3600 + (dv m1 * 10 + dv m2) * 60
      some (if sg = '-' then -v else v)
    else none
  | _ => none

/-- Modelled from the spec: RFC 3339 parsing (`time.Parse(time.RFC3339, s)`),
returning the parsed instant (seconds, nanoseconds).  The layout has no
fractional-second field, so the parsed nanosecond component is always zero. -/
def parseRFC3339List : List Char → Option (Int × Nat)
  | y1 :: y2 :: y3 :: y4 :: a1 :: mo1 :: mo2 :: a2 :: d1 :: d2 :: a3 ::
      h1 :: h2 :: a4 :: mi1 :: mi2 :: a5 :: s1 :: s2 :: rest =>
    if y1.isDigit ∧ y2.isDigit ∧ y3.isDigit ∧ y4.isDigit ∧ a1 = '-' ∧
        mo1.isDigit ∧ mo2.isDigit ∧ a2 = '-' ∧ d1.isDigit ∧ d2.isDigit ∧
        a3 = 'T' ∧ h1.isDigit ∧ h2.isDigit ∧ a4 = ':' ∧ mi1.isDigit ∧
        mi2.isDigit ∧ a5 = ':' ∧ s1.isDigit ∧ s2.isDigit then
      let y := dv y1 * 1000 + dv y2 * 100 + dv y3 * 10 + dv y4
      let mo := dv mo1 * 10 + dv mo2
      let dy := dv d1 * 10 + dv d2
      let hh := dv h1 * 10 + dv h2
      let mi := dv mi1 * 10 + dv mi2
      let ss := dv s1 * 10 + dv s2
      if 1 ≤ mo ∧ mo ≤ 12 ∧ 1 ≤ dy ∧ dy ≤ 31 ∧ hh ≤ 23 ∧ mi ≤ 59 ∧ ss ≤ 59 then
        match parseZoneL rest with
        | some off =>
          some (daysFromCivil y mo dy * 86400 +
            ((hh : Int) * 3600 + (mi : Int) * 60 + (ss : Int)) - off, 0)
        | none => none
      else none
    else none
  | _ => none

/-- RFC 3339 parsing on strings. -/
def parseRFC3339 (s : String) : Option (Int × Nat) :=
  parseRFC3339List s.data

/-- Go `time.Duration` minimum (`math.MinInt64` nanoseconds). -/
def minDuration : Int := -(2 ^ 63)

/-- Go `time.Duration` maximum (`math.MaxInt64` nanoseconds). -/
def maxDuration : Int := 2 ^ 63 - 1

/-- Go `time` internal `lessThanHalf r m`: `r + r < m`. -/
def lessThanHalf (r m : Int) : Bool := decide (r + r < m)

/-- Go `Duration.Round(m)`: rounds to the nearest multiple of `m`, halves
rounding away from zero.  `Int.tmod` is Go's `%` (truncated remainder); the
overflow clamps of the original cannot fire at the magnitudes handled here. -/
def durationRound (d m : Int) : Int :=
  if m ≤ 0 then d
  else
    let r := Int.tmod d m
    if d < 0 then
      let r' := -r
      if lessThanHalf r' m then d + r'
      else if d - m + r' < d then d - m + r' else minDuration
    else
      if lessThanHalf r m then d - r
      else if d < d + m - r then d + m - r else maxDuration

/-- One step of Go `time` internal `fmtFrac`: renders up to `prec` fractional
digits right-to-left, omitting trailing zeros, prefixing a `.` when any digit
was printed; returns the remaining value. -/
def fmtFracAux : Nat → Nat → Bool → List Char → List Char × Nat
  | v, 0, print, tail => (if print then '.' :: tail else tail, v)
  | v, prec + 1, print, tail =>
    let dg := v % 10
    let pr := print || decide (dg ≠ 0)
    let tail' := if pr then digitChar dg :: tail else tail
    fmtFracAux (v / 10) prec pr tail'

/-- Go `Duration.String()`: `"0s"`, `"1ms"`, `"1.234567ms"`, `"1h2m3.5s"`,
and so on. -/
def durationString (d : Int) : String :=
  let u := d.natAbs
  let neg := d < 0
  if u < 1000000000 then
    if u = 0 then "0s"
    else
      let pu : Nat × List Char :=
        if u < 1000 then (0, ['n', 's'])
        else if u < 1000000 then (3, ['µ', 's'])
        else (6, ['m', 's'])
      let ft := fmtFracAux u pu.1 false pu.2
      let core := Nat.toDigits 10 ft.2 ++ ft.1
      String.mk (if neg then '-' :: core else core)
  else
    let ft := fmtFracAux u 9 false ['s']
    let u1 := ft.2
    let core1 := Nat.toDigits 10 (u1 % 60) ++ ft.1
    let u2 := u1 / 60
    let core2 :=
      if u2 = 0 then core1
      else
        let c := Nat.toDigits 10 (u2 % 60) ++ 'm' :: core1
        let u3 := u2 / 60
        if u3 = 0 then c else Nat.toDigits 10 u3 ++ 'h' :: c
    String.mk (if neg then '-' :: core2 else core2)

/-- Nanoseconds per millisecond (`time.Millisecond`). -/
def millisecond : Int := 1000000

/-- Nanoseconds per second (`time.Second`). -/
def second : Int := 1000000000

end gotime

/-! ## `probe` package model (modelled from the spec: the `probe` package is
not among the analysed sources; `discord.go` consumes it through the interface
described in the specification's DATA MODEL and EXTERNAL INTERFACES
sections). -/

namespace probe

/-- Modelled from the spec: the probe status enum `{Up, Down, Unknown}`. -/
inductive Status where
  | up
  | down
  | unknown
  deriving DecidableEq, Inhabited

/-- Modelled from the spec: the glyph associated with each status
(`Status.Emoji()`; the concrete glyphs live in the `probe` package, outside
the analysed sources). -/
def Status.Emoji : Status → String
  | .up => "✅"
  | .down => "❌"
  | .unknown => "⁉️"

/-- Modelled from the spec: the display string of a status
(`Status.String()`). -/
def Status.Str : Status → String
  | .up => "up"
  | .down => "down"
  | .unknown => "unknown"

/-- Modelled from the spec: the `Stat` substructure of a probe result —
uptime and downtime (`time.Duration` nanoseconds), total probe count, and the
status-distribution text (`probe.StatStatusText(stat, probe.Makerdown)` is
computed in the `probe` package; its output for this stat is carried here as
`StatusTextMd`). -/
structure Stat where
  UpTime : Int
  DownTime : Int
  Total : Int
  StatusTextMd : String
  deriving DecidableEq, Inhabited

/-- Modelled from the spec: `probe.StatStatusText(stat, probe.Makerdown)`,
the provider-markup status-distribution string. -/
def StatStatusText (s : Stat) : String := s.StatusTextMd

/-- Modelled from the spec: a probe result.  `TitleStr` carries the output of
the `Result.Title()` accessor and `SLAhundredths` the SLA percentage scaled
by 100 (the `float64` value is rendered with two decimals); both are computed
in the `probe` package, outside the analysed sources. -/
structure Result where
  Name : String
  Endpoint : String
  Message : String
  Status : probe.Status
  RoundTripTime : Int
  StartTime : gotime.GoTime
  TimeFormat : String
  TitleStr : String
  SLAhundredths : Int
  Stat : probe.Stat
  deriving DecidableEq, Inhabited

/-- Modelled from the spec: the `Result.Title()` accessor. -/
def Result.Title (r : Result) : String := r.TitleStr

/-- Modelled from the spec: rendering of `result.SLA()` under the `%.2f`
verb, from the percentage scaled by 100. -/
def slaText (v : Int) : String :=
  toString (v / 100) ++ "." ++ String.mk (gotime.pad2l (v.natAbs % 100))

/-- Modelled from the spec: a `Prober` handle exposing a `Result()` accessor
(the pointer indirection of the Go interface is immaterial here). -/
structure Prober where
  ResultVal : probe.Result
  deriving DecidableEq, Inhabited

/-- The `Prober.Result()` accessor. -/
def Prober.Result (p : Prober) : probe.Result := p.ResultVal

end probe

/-! ## `encoding/json` / `reflect` struct-tag model.  Go selects a struct
field's JSON key from its struct tag via `reflect.StructTag.Lookup`; a
malformed tag (missing quotes) yields no `json` key and the Go field name is
used.  This is embedded because two of the `Author` tags in the source are
malformed. -/

namespace gojson

/-- Characters allowed in a tag key by `reflect.StructTag.Lookup`. -/
def tagKeyChar (c : Char) : Bool :=
  decide (32 < c.toNat) && c != ':' && c != '"' && decide (c.toNat ≠ 127)

/-- Scan of a quoted tag value (after the opening quote): content up to the
closing quote, honouring backslash escapes; `none` when the quote is never
closed. -/
def scanQ : List Char → Option (List Char × List Char)
  | [] => none
  | '"' :: rest => some ([], rest)
  | '\\' :: c :: rest =>
    match scanQ rest with
    | some (v, r) => some ('\\' :: c :: v, r)
    | none => none
  | c :: rest =>
    match scanQ rest with
    | some (v, r) => some (c :: v, r)
    | none => none

/-- Go `reflect.StructTag.Lookup`, with explicit fuel (each round consumes at
least one character of the tag).  The tag values appearing in the analysed
source contain no escape sequences, so the `strconv.Unquote` step is the
identity on the scanned content. -/
def structTagLookupAux : Nat → List Char → List Char → Option (List Char)
  | 0, _, _ => none
  | fuel + 1, key, tag =>
    let tag1 := tag.dropWhile (· = ' ')
    if tag1 = [] then none
    else
      let name := tag1.takeWhile tagKeyChar
      let rest := tag1.dropWhile tagKeyChar
      if name = [] then none
      else
        match rest with
        | ':' :: '"' :: rest2 =>
          match scanQ rest2 with
          | none => none
          | some (v, rest3) =>
            if name = key then some v else structTagLookupAux fuel key rest3
        | _ => none

/-- Go `reflect.StructTag.Lookup` on strings. -/
def structTagLookup (key tag : String) : Option (List Char) :=
  structTagLookupAux (tag.data.length + 1) key.data tag.data

/-- The JSON key `encoding/json` uses for a struct field: the name part of
the `json` tag when present and non-empty, the Go field name otherwise.
(The `-`, `omitempty` and name-validity refinements of `encoding/json` do not
arise for the tags in the analysed source.) -/
def jsonFieldName (goName tag : String) : String :=
  match structTagLookup "json" tag with
  | none => goName
  | some v =>
    let nm := v.takeWhile (· ≠ ',')
    if nm = [] then goName else String.mk nm

/-- Hexadecimal digit (lowercase), as used by `encoding/json` escapes. -/
def hexDigit (n : Nat) : Char :=
  if n < 10 then gotime.digitChar n else Char.ofNat (87 + n)

/-- Go `encoding/json` string escaping for one character (with the default
HTML escaping of `<`, `>`, `&` that `json.Marshal` applies). -/
def escChar (c : Char) : List Char :=
  if c = '"' then ['\\', '"']
  else if c = '\\' then ['\\', '\\']
  else if c = '<' then ['\\', 'u', '0', '0', '3', 'c']
  else if c = '>' then ['\\', 'u', '0', '0', '3', 'e']
  else if c = '&' then ['\\', 'u', '0', '0', '2', '6']
  else if c = '\n' then ['\\', 'n']
  else if c = '\r' then ['\\', 'r']
  else if c = '\t' then ['\\', 't']
  else if c.toNat < 32 then
    ['\\', 'u', '0', '0', hexDigit (c.toNat / 16), hexDigit (c.toNat % 16)]
  else if c.toNat = 8232 then ['\\', 'u', '2', '0', '2', '8']
  else if c.toNat = 8233 then ['\\', 'u', '2', '0', '2', '9']
  else [c]

/-- A JSON string literal. -/
def jsonStr (s : String) : String :=
  "\"" ++ String.mk (s.data.foldr (fun c acc => escChar c ++ acc) []) ++ "\""

/-- Comma-separated concatenation. -/
def commaJoin : List String → String
  | [] => ""
  | [x] => x
  | x :: xs => x ++ "," ++ commaJoin xs

/-- A JSON object from rendered key/value pairs (in field order, as
`encoding/json` emits struct fields). -/
def jsonObj (fields : List (String × String)) : String :=
  "\x7b" ++ commaJoin (fields.map (fun kv => jsonStr kv.1 ++ ":" ++ kv.2)) ++ "\x7d"

/-- A JSON array. -/
def jsonArr (elems : List String) : String :=
  "[" ++ commaJoin elems ++ "]"

/-- A JSON boolean. -/
def jsonBool (b : Bool) : String := if b then "true" else "false"

end gojson

/-! ## The `discord` package (embedded from `notify/discord/discord.go`). -/

namespace discord

/-- Struct `Thumbnail` (tag `json:"url"`). -/
structure Thumbnail where
  URL : String
  deriving DecidableEq, Inhabited

/-- Struct `Fields` (tags `json:"name"`, `json:"value"`, `json:"inline"`). -/
structure Fields where
  Name : String
  Value : String
  Inline : Bool
  deriving DecidableEq, Inhabited

/-- Struct `Footer` (tags `json:"text"`, `json:"icon_url"`). -/
structure Footer where
  Text : String
  IconURL : String
  deriving DecidableEq, Inhabited

/-- Struct `Author`.  The struct tags are reproduced verbatim below in
`authorNameTag`, `authorURLTag`, `authorIconURLTag`; the latter two are
malformed in the source (`json:"url` lacks its closing quote and
`json:icon_url` is unquoted). -/
structure Author where
  Name : String
  URL : String
  IconURL : String
  deriving DecidableEq, Inhabited

/-- The struct tag of `Author.Name`: `json:"name"`. -/
def authorNameTag : String := "json:\"name\""

/-- The struct tag of `Author.URL`, verbatim from the source: `json:"url`
(the closing quote is missing). -/
def authorURLTag : String := "json:\"url"

/-- The struct tag of `Author.IconURL`, verbatim from the source:
`json:icon_url` (the value is unquoted). -/
def authorIconURLTag : String := "json:icon_url"

/-- The JSON keys `encoding/json` derives for the three `Author` fields from
their struct tags. -/
def authorJSONKeys : List String :=
  [gojson.jsonFieldName "Name" authorNameTag,
   gojson.jsonFieldName "URL" authorURLTag,
   gojson.jsonFieldName "IconURL" authorIconURLTag]

/-- Struct `Embed`. -/
structure Embed where
  Author : Author
  Title : String
  URL : String
  Color : Int
  Description : String
  Timestamp : String
  Thumbnail : Thumbnail
  Fields : List Fields
  Footer : Footer
  deriving DecidableEq, Inhabited

/-- Struct `Discord`, the top-level webhook payload. -/
structure Discord where
  Username : String
  AvatarURL : String
  Content : String
  Embeds : List Embed
  deriving DecidableEq, Inhabited

/-- Struct `NotifyConfig`. -/
structure NotifyConfig where
  WebhookURL : String
  Dry : Bool
  deriving DecidableEq, Inhabited

/-- Method `NotifyConfig.Kind()`. -/
def NotifyConfig.Kind (_ : NotifyConfig) : String := "discord"

/-- Go `json.Marshal` of an `Author`: the keys come from the struct tags via
`gojson.jsonFieldName` (so the two malformed tags fall back to the Go field
names). -/
def Author.json (a : Author) : String :=
  gojson.jsonObj
    [(gojson.jsonFieldName "Name" authorNameTag, gojson.jsonStr a.Name),
     (gojson.jsonFieldName "URL" authorURLTag, gojson.jsonStr a.URL),
     (gojson.jsonFieldName "IconURL" authorIconURLTag, gojson.jsonStr a.IconURL)]

/-- Go `json.Marshal` of a `Thumbnail`. -/
def Thumbnail.json (t : Thumbnail) : String :=
  gojson.jsonObj [("url", gojson.jsonStr t.URL)]

/-- Go `json.Marshal` of a `Fields`. -/
def Fields.json (f : Fields) : String :=
  gojson.jsonObj
    [("name", gojson.jsonStr f.Name), ("value", gojson.jsonStr f.Value),
     ("inline", gojson.jsonBool f.Inline)]

/-- Go `json.Marshal` of a `Footer`. -/
def Footer.json (f : Footer) : String :=
  gojson.jsonObj
    [("text", gojson.jsonStr f.Text), ("icon_url", gojson.jsonStr f.IconURL)]

/-- Go `json.Marshal` of an `Embed` (fields in declaration order; the non-
`Author` tags are well-formed, so their keys are written directly). -/
def Embed.json (e : Embed) : String :=
  gojson.jsonObj
    [("author", e.Author.json),
     ("title", gojson.jsonStr e.Title),
     ("url", gojson.jsonStr e.URL),
     ("color", toString e.Color),
     ("description", gojson.jsonStr e.Description),
     ("timestamp", gojson.jsonStr e.Timestamp),
     ("thumbnail", e.Thumbnail.json),
     ("fields", gojson.jsonArr (e.Fields.map Fields.json)),
     ("footer", e.Footer.json)]

/-- Go `json.Marshal` of a `Discord` payload. -/
def Discord.json (d : Discord) : String :=
  gojson.jsonObj
    [("username", gojson.jsonStr d.Username),
     ("avatar_url", gojson.jsonStr d.AvatarURL),
     ("content", gojson.jsonStr d.Content),
     ("embeds", gojson.jsonArr (d.Embeds.map Embed.json))]

/-- Go `json.Marshal` with Go's `(bytes, error)` shape.  On a `Discord` value —
strings, integers, booleans and slices thereof — Go's `json.Marshal` cannot
fail, so the error case never occurs; the `Except` shape is kept so that the
error branches of the callers remain visible in the embedding. -/
def jsonMarshal (d : Discord) : Except String String :=
  Except.ok d.json

/-- Reflect-style `%v` rendering of a `NotifyConfig` (no `String` method, so
`fmt` prints the brace-wrapped field values). -/
def goFmtConfig (c : NotifyConfig) : String :=
  "\x7b" ++ c.WebhookURL ++ " " ++ (if c.Dry then "true" else "false") ++ "\x7d"

/-- Reflect-style `%v` rendering of an `Embed` (used only on the
`json.Marshal`-failure path, which is unreachable). -/
def goFmtEmbed (e : Embed) : String :=
  "\x7b\x7b" ++ e.Author.Name ++ " " ++ e.Author.URL ++ " " ++ e.Author.IconURL ++
    "\x7d " ++ e.Title ++ " " ++ e.URL ++ " " ++ toString e.Color ++ " " ++
    e.Description ++ " " ++ e.Timestamp ++ " \x7b" ++ e.Thumbnail.URL ++
    "\x7d [] \x7b" ++ e.Footer.Text ++ " " ++ e.Footer.IconURL ++ "\x7d\x7d"

/-- Reflect-style `%v` rendering of a `Discord` (used only on the
`json.Marshal`-failure path, which is unreachable). -/
def goFmtDiscord (d : Discord) : String :=
  "\x7b" ++ d.Username ++ " " ++ d.AvatarURL ++ " " ++ d.Content ++ " [" ++
    String.intercalate " " (d.Embeds.map goFmtEmbed) ++ "]\x7d"

/-- Method `NewDiscord`: render a single probe result into a one-embed payload. -/
def NotifyConfig.NewDiscord (_c : NotifyConfig) (result : probe.Result) : Discord :=
  let discord : Discord :=
    { Username := "Easeprobe"
      AvatarURL := "https://megaease.cn/favicon.png"
      Content := ""
      Embeds := [] }
  let color : Int := if result.Status ≠ probe.Status.up then 10945283 else 1091331
  let rtt := gotime.durationRound result.RoundTripTime gotime.millisecond
  let description :=
    (result.Status.Emoji ++ " " ++ result.Endpoint ++ " - ⏱ ") ++
      gotime.durationString rtt ++ ("\n```" ++ result.Message ++ "```")
  { discord with
    Embeds := discord.Embeds ++
      [{ Author := { Name := "", URL := "", IconURL := "" }
         Title := result.Title
         URL := ""
         Color := color
         Description := description
         Timestamp := (result.StartTime.UTC).Format gotime.rfc3339Layout
         Thumbnail := { URL := "https://megaease.cn/favicon.png" }
         Fields := []
         Footer := { Text := "Probed at", IconURL := "https://megaease.cn/favicon.png" } }] }

/-- Method `NewEmbed`: render one probe result into an aggregate-report embed. -/
def NotifyConfig.NewEmbed (_c : NotifyConfig) (result : probe.Result) : Embed :=
  let desc :=
    ("**Availability**\n>\t **Up**:  `") ++
      gotime.durationString (gotime.durationRound result.Stat.UpTime gotime.second) ++
      (("`  **Down** `") ++
        gotime.durationString (gotime.durationRound result.Stat.DownTime gotime.second) ++
        ("`  -  **SLA**: `" ++ probe.slaText result.SLAhundredths ++ " %`" ++
          "\n**Probe Times**\n>\t**Total** : `" ++ toString result.Stat.Total ++
          "` ( " ++ probe.StatStatusText result.Stat ++ " )" ++
          "\n**Lastest Probe**\n>\t" ++
          (result.StartTime.UTC).Format result.TimeFormat ++ " | " ++
          (result.Status.Emoji ++ " " ++ result.Status.Str) ++
          "\n>\t`" ++ result.Message ++ " ` "))
  { Author := { Name := "", URL := "", IconURL := "" }
    Title := result.Name ++ " - " ++ result.Endpoint
    URL := ""
    Color := 239
    Description := desc
    Timestamp := ""
    Thumbnail := { URL := "" }
    Fields := []
    Footer := { Text := "", IconURL := "" } }

/-- Method `NewEmbeds`: render a prober list into the aggregate SLA-report payload
(the `for … append` loop becomes a left fold that appends one embed per
prober). -/
def NotifyConfig.NewEmbeds (c : NotifyConfig) (probers : List probe.Prober) : Discord :=
  let discord : Discord :=
    { Username := "Easeprobe"
      AvatarURL := "https://megaease.cn/favicon.png"
      Content := "**Overall SLA Report**"
      Embeds := [] }
  { discord with
    Embeds := probers.foldl (fun es p => es ++ [c.NewEmbed p.Result]) discord.Embeds }

end discord

namespace discord

/-- An HTTP request as built by `SendDiscordNotification` (`http.NewRequest`
plus the header and `Close` settings; `NewRequest` itself cannot fail there:
the method is the constant `POST` and the URL is configuration, whose parsing
is out of scope). -/
structure HTTPRequest where
  method : String
  url : String
  headers : List (String × String)
  body : String
  close : Bool
  deriving DecidableEq, Inhabited

/-- An HTTP response as observed by `SendDiscordNotification` (status code
and the body it reads into its buffer). -/
structure HTTPResponse where
  statusCode : Int
  body : String
  deriving DecidableEq, Inhabited

/-- An observable side effect of the notifier: one HTTP POST performed by the
`http.Client` (with its configured timeout, in nanoseconds), or one log line
at info or error level. -/
inductive Effect where
  | httpPost (req : HTTPRequest) (timeoutNs : Int)
  | logInfo (msg : String)
  | logError (msg : String)
  deriving DecidableEq, Inhabited

/-- The `http.Client{Timeout: 10 * time.Second}` timeout. -/
def clientTimeout : Int := 10 * gotime.second

/-- The request `SendDiscordNotification` builds for a serialized body:
`POST` to the configured webhook URL, `Content-Type: application/json`,
`req.Close = true`. -/
def buildRequest (c : NotifyConfig) (body : String) : HTTPRequest :=
  { method := "POST"
    url := c.WebhookURL
    headers := [("Content-Type", "application/json")]
    body := body
    close := true }

/-- Method `SendDiscordNotification`: marshal, POST, require status 204.  The
network is the explicit `world` function (a transport fault is its `error`
case, carrying the Go error text); the returned trace records the POST
actually issued. -/
def NotifyConfig.SendDiscordNotification (c : NotifyConfig)
    (world : HTTPRequest → Except String HTTPResponse) (discord : Discord) :
    List Effect × Except String Unit :=
  match jsonMarshal discord with
  | .error e => ([], .error e)
  | .ok body =>
    let req := buildRequest c body
    match world req with
    | .error e => ([Effect.httpPost req clientTimeout], .error e)
    | .ok resp =>
      if resp.statusCode ≠ 204 then
        ([Effect.httpPost req clientTimeout],
         .error ("Error response from Discord [" ++ toString resp.statusCode ++
           "] - [" ++ resp.body ++ "]"))
      else ([Effect.httpPost req clientTimeout], .ok ())

/-- Method `DryNotify`: marshal the rendered payload and log it at info level. -/
def NotifyConfig.DryNotify (c : NotifyConfig) (result : probe.Result) : List Effect :=
  let discord := c.NewDiscord result
  match jsonMarshal discord with
  | .error e => [Effect.logError ("error : " ++ e)]
  | .ok js => [Effect.logInfo ("[" ++ c.Kind ++ "] Dry notify - " ++ js)]

/-- Method `DryNotifyStat`: marshal the aggregate payload and log it at info
level. -/
def NotifyConfig.DryNotifyStat (c : NotifyConfig) (probers : List probe.Prober) :
    List Effect :=
  let discord := c.NewEmbeds probers
  match jsonMarshal discord with
  | .error e => [Effect.logError ("error : " ++ e)]
  | .ok js => [Effect.logInfo ("[" ++ c.Kind ++ "] Dry notify - " ++ js)]

/-- Method `Notify`: dry-run short-circuit, otherwise render, send, and log the
outcome.  The Go function returns nothing; its observable behaviour is the
effect trace returned here. -/
def NotifyConfig.Notify (c : NotifyConfig)
    (world : HTTPRequest → Except String HTTPResponse) (result : probe.Result) :
    List Effect :=
  if c.Dry then c.DryNotify result
  else
    let discord := c.NewDiscord result
    let out := c.SendDiscordNotification world discord
    match out.2 with
    | .error err =>
      out.1 ++ [Effect.logError err] ++
        (match jsonMarshal discord with
         | .error _ =>
           [Effect.logError ("Notify[" ++ c.Kind ++ "] - " ++ goFmtDiscord discord)]
         | .ok js => [Effect.logError ("Notify[" ++ c.Kind ++ "] - " ++ js)])
    | .ok _ =>
      out.1 ++ [Effect.logInfo ("Sent the Discord notification for " ++
        result.Name ++ " (" ++ result.Endpoint ++ ")!")]

/-- Method `NotifyStat`: dry-run short-circuit, otherwise render the aggregate
report, send, and log the outcome.  The error-path log call in the source,
`log.Errorf("Notify[%s] - %s", c, c.Kind(), string(json))`, passes one
argument more than the format string consumes, so `fmt` renders the config
for the first verb, the kind for the second, and appends the JSON inside a
`%!(EXTRA string=…)` section — reproduced verbatim here. -/
def NotifyConfig.NotifyStat (c : NotifyConfig)
    (world : HTTPRequest → Except String HTTPResponse) (probers : List probe.Prober) :
    List Effect :=
  if c.Dry then c.DryNotifyStat probers
  else
    let discord := c.NewEmbeds probers
    let out := c.SendDiscordNotification world discord
    match out.2 with
    | .error err =>
      out.1 ++ [Effect.logError err] ++
        (match jsonMarshal discord with
         | .error _ =>
           [Effect.logError ("Notify[" ++ c.Kind ++ "] - " ++ goFmtDiscord discord)]
         | .ok js =>
           [Effect.logError ("Notify[" ++ goFmtConfig c ++ "] - " ++ c.Kind ++
             "%!(EXTRA string=" ++ js ++ ")")])
    | .ok _ =>
      out.1 ++ [Effect.logInfo "Sent the Statstics to Slack Successfully!"]

end discord

/-! ## Concrete fixtures used by witness and counterexample theorems. -/

/-- Fixture: a configuration with dry-run disabled. -/
def wetConfig : discord.NotifyConfig :=
  { WebhookURL := "https://example.com/webhook", Dry := false }

/-- Fixture: a configuration with dry-run enabled. -/
def dryConfig : discord.NotifyConfig :=
  { WebhookURL := "https://example.com/webhook", Dry := true }

/-- Fixture: a sample probe result (start time 2001-09-09T01:46:40Z). -/
def sampleResult : probe.Result :=
  { Name := "svc"
    Endpoint := "http://svc:80"
    Message := "ok"
    Status := probe.Status.up
    RoundTripTime := 1234567
    StartTime := { sec := 1000000000, nsec := 0, offset := 0 }
    TimeFormat := "2006-01-02 15:04:05 UTC"
    TitleStr := "svc up"
    SLAhundredths := 9999
    Stat := { UpTime := 3600000000000, DownTime := 60000000000,
              Total := 100, StatusTextMd := "`99/100`" } }

/-- Fixture: a prober handle returning `sampleResult`. -/
def sampleProber : probe.Prober := { ResultVal := sampleResult }

/-- Fixture: the sample result with a sub-second start-time component. -/
def subsecondResult : probe.Result :=
  { sampleResult with StartTime := { sec := 1000000000, nsec := 500000000, offset := 0 } }

/-- Fixture: a transport in which every request fails with a connection
error. -/
def downWorld : discord.HTTPRequest → Except String discord.HTTPResponse :=
  fun _ => .error "connection refused"

/-- Fixture: a transport in which every request gets a 204 No Content. -/
def upWorld : discord.HTTPRequest → Except String discord.HTTPResponse :=
  fun _ => .ok { statusCode := 204, body := "" }

/-- Fixture: a transport in which every request gets a 400 with a body. -/
def badWorld : discord.HTTPRequest → Except String discord.HTTPResponse :=
  fun _ => .ok { statusCode := 400, body := "Bad Request" }

/-! ## Theorems.  First the calendar lemmas underlying the RFC 3339
round-trip, then shared rendering lemmas, then one theorem per claim. -/

namespace gotime

set_option maxHeartbeats 1000000 in
/-- Bounds and the start-of-year identity for the cycle-stripping
decomposition of a day of era. -/
theorem yoeDecomp (doe n n100 d1 n4 d2 m0 n1 doy yoe : Nat) (h : doe < 146097)
    (hn : n = doe / 36524) (h100 : n100 = n - n / 4) (hd1 : d1 = doe - 36524 * n100)
    (hn4 : n4 = d1 / 1461) (hd2 : d2 = d1 - 1461 * n4) (hm0 : m0 = d2 / 365)
    (hn1 : n1 = m0 - m0 / 4) (hdoy : doy = d2 - 365 * n1)
    (hyoe : yoe = 100 * n100 + 4 * n4 + n1) :
    yoe ≤ 399 ∧ doy ≤ 365 ∧ 365 * yoe + yoe / 4 - yoe / 100 + doy = doe := by
  have h1 : n ≤ 4 := by omega
  have h2 : n100 ≤ 3 := by omega
  have h3 : d1 ≤ 36524 := by omega
  have h4 : n4 ≤ 24 := by omega
  have h5 : d2 ≤ 1460 := by omega
  have h6 : m0 ≤ 4 := by omega
  have h7 : n1 ≤ 3 := by omega
  have h8 : doy ≤ 365 := by omega
  have h9 : yoe / 4 = 25 * n100 + n4 := by omega
  have h10 : yoe / 100 = n100 := by omega
  have h11 : 36524 * n100 ≤ doe := by omega
  have h12 : 1461 * n4 ≤ d1 := by omega
  have h13 : 365 * n1 ≤ d2 := by omega
  refine ⟨by omega, h8, by omega⟩

set_option maxHeartbeats 4000000 in
/-- Field bounds of `civilFromDays` and its inversion by `daysFromCivil`,
stated over the intermediate quantities of the computation. -/
theorem civil_core (days z era doe n n100 d1 n4 d2 m0 n1 doy yoe y mp dd mm : Nat)
    (h : days ≤ 2932896)
    (hz : z = days + 719468) (hera : era = z / 146097) (hdoe : doe = z % 146097)
    (hn : n = doe / 36524) (h100 : n100 = n - n / 4) (hd1 : d1 = doe - 36524 * n100)
    (hn4 : n4 = d1 / 1461) (hd2 : d2 = d1 - 1461 * n4) (hm0 : m0 = d2 / 365)
    (hn1 : n1 = m0 - m0 / 4) (hdoy : doy = d2 - 365 * n1)
    (hyoe : yoe = 100 * n100 + 4 * n4 + n1)
    (hy : y = yoe + era * 400)
    (hmp : mp = (5 * doy + 2) / 153)
    (hdd : dd = doy - (153 * mp + 2) / 5 + 1)
    (hmm : mm = if mp < 10 then mp + 3 else mp - 9) :
    (if mm ≤ 2 then y + 1 else y) ≤ 9999 ∧ 1 ≤ mm ∧ mm ≤ 12 ∧ 1 ≤ dd ∧ dd ≤ 31 ∧
    daysFromCivil (if mm ≤ 2 then y + 1 else y) mm dd = (days : Int) := by
  have hdoeB : doe < 146097 := by omega
  obtain ⟨hyoeB, hdoyB, hstart⟩ :=
    yoeDecomp doe n n100 d1 n4 d2 m0 n1 doy yoe hdoeB hn h100 hd1 hn4 hd2 hm0 hn1 hdoy hyoe
  have hmpB : mp ≤ 11 := by omega
  have hfl : (153 * mp + 2) / 5 ≤ doy := by omega
  have hddB : 1 ≤ dd ∧ dd ≤ 31 := by omega
  have heraB : era ≤ 24 := by omega
  have hzB : era * 146097 + doe = z := by omega
  rcases Nat.lt_or_ge mp 10 with hlt | hge
  · rw [if_pos hlt] at hmm
    have hmmB : 3 ≤ mm ∧ mm ≤ 12 := by omega
    rw [if_neg (by omega : ¬ mm ≤ 2)]
    unfold daysFromCivil
    dsimp only
    rw [if_neg (by omega : ¬ mm ≤ 2), if_pos (by omega : 2 < mm)]
    rw [show y / 400 = era by omega]
    rw [show y - era * 400 = yoe by omega]
    rw [show mm - 3 = mp by omega]
    rw [show (153 * mp + 2) / 5 + dd - 1 = doy by omega]
    refine ⟨by omega, by omega, by omega, hddB.1, hddB.2, ?_⟩
    omega
  · rw [if_neg (by omega : ¬ mp < 10)] at hmm
    have hdoyGe : 306 ≤ doy := by omega
    have hmmB : 1 ≤ mm ∧ mm ≤ 2 := by omega
    rw [if_pos (by omega : mm ≤ 2)]
    unfold daysFromCivil
    dsimp only
    rw [if_pos (by omega : mm ≤ 2), if_neg (by omega : ¬ 2 < mm)]
    rw [show y + 1 - 1 = y by omega]
    rw [show y / 400 = era by omega]
    rw [show y - era * 400 = yoe by omega]
    rw [show mm + 9 = mp by omega]
    rw [show (153 * mp + 2) / 5 + dd - 1 = doy by omega]
    refine ⟨?_, by omega, by omega, hddB.1, hddB.2, ?_⟩
    · omega
    · omega

/-- Theorem: `daysFromCivil` inverts `civilFromDays` on the representable day range
(1970-01-01 up to 9999-12-31), and the produced fields lie in the ranges the
RFC 3339 parser accepts. -/
theorem civil_inverse (days : Nat) (h : days ≤ 2932896) :
    (civilFromDays days).y ≤ 9999 ∧ 1 ≤ (civilFromDays days).m ∧
    (civilFromDays days).m ≤ 12 ∧ 1 ≤ (civilFromDays days).d ∧
    (civilFromDays days).d ≤ 31 ∧
    daysFromCivil (civilFromDays days).y (civilFromDays days).m
      (civilFromDays days).d = (days : Int) :=
  civil_core days _ _ _ _ _ _ _ _ _ _ _ _ _ _ _ _ h rfl rfl rfl rfl rfl rfl rfl
    rfl rfl rfl rfl rfl rfl rfl rfl rfl

end gotime

namespace gotime

/-- Theorem: `digitChar` produces digit characters with the expected code points. -/
theorem digit_facts : ∀ k, k < 10 →
    ((digitChar k).isDigit = true ∧ (digitChar k).toNat = 48 + k) := by decide

/-- A rendered digit passes `Char.isDigit`. -/
theorem digitChar_mod_isDigit (a : Nat) : (digitChar (a % 10)).isDigit = true :=
  (digit_facts _ (Nat.mod_lt _ (by omega))).1

/-- Reading back a rendered digit recovers its value. -/
theorem dv_digitChar_mod (a : Nat) : dv (digitChar (a % 10)) = a % 10 := by
  have h := (digit_facts (a % 10) (Nat.mod_lt _ (by omega))).2
  simp [dv, h]

set_option maxHeartbeats 2000000 in
/-- Parsing the RFC 3339 rendering of an in-range UTC instant recovers the
instant, with a zero nanosecond component. -/
theorem rfc3339_roundtrip (t : GoTime) (h0 : 0 ≤ t.sec)
    (h1 : t.sec < 253402300800) (hoff : t.offset = 0) :
    parseRFC3339List (rfc3339List t) = some (t.sec, 0) := by
  obtain ⟨sec, nsec, off⟩ := t
  dsimp only at h0 h1 hoff ⊢
  subst hoff
  rw [show rfc3339List ⟨sec, nsec, 0⟩ =
      (let w := sec.toNat
       let days := w / 86400
       let sod := w % 86400
       let cd := civilFromDays days
       pad4l cd.y ++ '-' :: pad2l cd.m ++ '-' :: pad2l cd.d ++
         'T' :: pad2l (sod / 3600) ++ ':' :: pad2l (sod / 60 % 60) ++
         ':' :: pad2l (sod % 60) ++ ['Z']) by
    simp [rfc3339List, zoneList]]
  dsimp only
  set w := sec.toNat with hw
  have hwB : w < 253402300800 := by omega
  have hdB : w / 86400 ≤ 2932896 := by omega
  obtain ⟨hy9, hm1, hm12, hdd1, hdd31, hinv⟩ := civil_inverse (w / 86400) hdB
  simp only [pad4l, pad2l, List.cons_append, List.nil_append, List.append_assoc]
  simp only [parseRFC3339List]
  set cy := (civilFromDays (w / 86400)).y with hcy
  set cm := (civilFromDays (w / 86400)).m with hcm
  set cdd := (civilFromDays (w / 86400)).d with hcdd
  simp only [digitChar_mod_isDigit, dv_digitChar_mod, true_and, and_true, if_true]
  rw [show cm / 10 % 10 * 10 + cm % 10 = cm by omega]
  rw [show cdd / 10 % 10 * 10 + cdd % 10 = cdd by omega]
  rw [show cy / 1000 % 10 * 1000 + cy / 100 % 10 * 100 + cy / 10 % 10 * 10 + cy % 10 = cy by omega]
  rw [show w % 86400 / 3600 / 10 % 10 * 10 + w % 86400 / 3600 % 10 = w % 86400 / 3600 by omega]
  rw [show w % 86400 / 60 % 60 / 10 % 10 * 10 + w % 86400 / 60 % 60 % 10 = w % 86400 / 60 % 60 by omega]
  rw [show w % 86400 % 60 / 10 % 10 * 10 + w % 86400 % 60 % 10 = w % 86400 % 60 by omega]
  rw [if_pos (by refine ⟨hm1, hm12, hdd1, hdd31, ?_, ?_, ?_⟩ <;> omega)]
  simp only [parseZoneL, if_pos]
  rw [hinv]
  simp only [Option.some.injEq, Prod.mk.injEq]
  refine ⟨?_, trivial⟩
  omega

end gotime

namespace discord

/-- The append-per-prober loop of `NewEmbeds` is a `map`. -/
theorem foldl_append_map {α β : Type} (f : α → β) (l : List α) (acc : List β) :
    l.foldl (fun es p => es ++ [f p]) acc = acc ++ l.map f := by
  induction l generalizing acc with
  | nil => simp
  | cons x xs ih => simp [ih]

/-- The embeds of `NewEmbeds` are one `NewEmbed` per prober, in order. -/
theorem newEmbeds_embeds (c : NotifyConfig) (probers : List probe.Prober) :
    (c.NewEmbeds probers).Embeds = probers.map (fun p => c.NewEmbed p.Result) := by
  simp [NotifyConfig.NewEmbeds, foldl_append_map]

/-- Appending an empty string is the identity (used to place a payload at the
end of a log line). -/
theorem append_empty_str (s : String) : s ++ "" = s := String.append_empty s

end discord

/-- C1: `NewDiscord` produces exactly one `MessageBlock`; its color is the
healthy constant 1091331 when the status is `Up` and the unhealthy constant
10945283 for every other status, and the two constants differ. -/
theorem C1_single_result_block_color (c : discord.NotifyConfig) (r : probe.Result) :
    ∃ e, (c.NewDiscord r).Embeds = [e] ∧
      e.Color = (if r.Status = probe.Status.up then 1091331 else 10945283) ∧
      (1091331 : Int) ≠ 10945283 := by
  refine ⟨_, rfl, ?_, by decide⟩
  cases h : r.Status <;>
    simp [discord.NotifyConfig.NewDiscord, h]

/-- C4: `NewEmbeds` on `N` probers yields exactly `N` blocks, each with the
informational color 239 and an empty timestamp; the content line is the fixed
SLA-report title; 239 differs from both single-result colors. -/
theorem C4_aggregate_report_shape (c : discord.NotifyConfig)
    (probers : List probe.Prober) :
    (c.NewEmbeds probers).Embeds.length = probers.length ∧
    (c.NewEmbeds probers).Content = "**Overall SLA Report**" ∧
    ((c.NewEmbeds probers).Embeds.all
      (fun e => e.Color == 239 && e.Timestamp == "")) = true ∧
    (239 : Int) ≠ 1091331 ∧ (239 : Int) ≠ 10945283 := by
  refine ⟨?_, rfl, ?_, by decide, by decide⟩
  · rw [discord.newEmbeds_embeds]; simp
  · rw [discord.newEmbeds_embeds]
    rw [List.all_eq_true]
    intro e he
    rw [List.mem_map] at he
    obtain ⟨p, _, rfl⟩ := he
    rfl

/-- C10: `NewEmbeds` preserves input order — its embed list is the map of
`NewEmbed` over the probers' results, and the `i`-th embed is `NewEmbed` of
the `i`-th prober's result. -/
theorem C10_order_preserved (c : discord.NotifyConfig)
    (probers : List probe.Prober) :
    (c.NewEmbeds probers).Embeds = probers.map (fun p => c.NewEmbed p.Result) ∧
    ∀ (i : Nat) (h : i < (c.NewEmbeds probers).Embeds.length)
      (h2 : i < probers.length),
      (c.NewEmbeds probers).Embeds.get ⟨i, h⟩ =
        c.NewEmbed ((probers.get ⟨i, h2⟩).Result) := by
  refine ⟨discord.newEmbeds_embeds c probers, ?_⟩
  intro i h h2
  simp [discord.newEmbeds_embeds]

/-- C10 witness: the order-preservation theorem applied to a concrete
two-prober list at index 1. -/
theorem C10_order_preserved_witness :
    (wetConfig.NewEmbeds [sampleProber, { ResultVal := subsecondResult }]).Embeds.get
        ⟨1, by decide⟩ =
      wetConfig.NewEmbed (([sampleProber, { ResultVal := subsecondResult }].get
        ⟨1, by decide⟩).Result) :=
  (C10_order_preserved wetConfig [sampleProber, { ResultVal := subsecondResult }]).2
    1 (by decide) (by decide)

/-- C5 counterexample: the claim "every payload has at most 10 blocks, for
every input" is false — `NewEmbeds` applied to 11 probers yields 11 blocks
(the code never truncates to the provider's 10-embed maximum). -/
theorem C5_block_limit_counterexample :
    ¬ ((wetConfig.NewEmbeds (List.replicate 11 sampleProber)).Embeds.length ≤ 10) := by
  rw [discord.newEmbeds_embeds]
  simp

/-- C5 (amended): `NewDiscord` payloads always have (1 ≤) 10 blocks, and
`NewEmbeds` payloads have at most 10 blocks whenever the prober list has at
most 10 entries; the bound fails only for longer inputs. -/
theorem C5_block_limit_amended (c : discord.NotifyConfig) (r : probe.Result)
    (probers : List probe.Prober) (h : probers.length ≤ 10) :
    (c.NewDiscord r).Embeds.length ≤ 10 ∧
    (c.NewEmbeds probers).Embeds.length ≤ 10 := by
  constructor
  · simp [discord.NotifyConfig.NewDiscord]
  · rw [discord.newEmbeds_embeds]; simpa using h

/-- C5 witness: the amended bound at a one-prober list. -/
theorem C5_block_limit_amended_witness :
    (wetConfig.NewDiscord sampleResult).Embeds.length ≤ 10 ∧
    (wetConfig.NewEmbeds [sampleProber]).Embeds.length ≤ 10 :=
  C5_block_limit_amended wetConfig sampleResult [sampleProber] (by decide)

/-- C8: the round-trip time in the single-result description is the raw
duration rounded to the nearest millisecond (1,234,567 ns renders as `1ms`),
and the uptime and downtime in the aggregate-report description are rounded
to the nearest second. -/
theorem C8_duration_rounding (c : discord.NotifyConfig) (r : probe.Result) :
    (∃ e pre post, (c.NewDiscord r).Embeds = [e] ∧
      e.Description =
        pre ++ gotime.durationString
          (gotime.durationRound r.RoundTripTime gotime.millisecond) ++ post) ∧
    gotime.durationString (gotime.durationRound 1234567 gotime.millisecond) = "1ms" ∧
    (∃ p1 p2 p3, (c.NewEmbed r).Description =
      p1 ++ gotime.durationString
        (gotime.durationRound r.Stat.UpTime gotime.second) ++
      (p2 ++ gotime.durationString
        (gotime.durationRound r.Stat.DownTime gotime.second) ++ p3)) := by
  refine ⟨⟨_, _, _, rfl, rfl⟩, by decide, ⟨_, _, _, rfl⟩⟩

/-- C2: `SendDiscordNotification` issues one POST to the configured webhook
URL with `Content-Type: application/json` and a 10-second client timeout;
it succeeds exactly when the response status is 204, reports any other status
together with the response body as an error, and returns a transport fault
as the underlying error. -/
theorem C2_send_discord_notification (c : discord.NotifyConfig)
    (world : discord.HTTPRequest → Except String discord.HTTPResponse)
    (d : discord.Discord) :
    (c.SendDiscordNotification world d).1 =
      [discord.Effect.httpPost (discord.buildRequest c d.json) discord.clientTimeout] ∧
    (discord.buildRequest c d.json).method = "POST" ∧
    (discord.buildRequest c d.json).url = c.WebhookURL ∧
    (discord.buildRequest c d.json).headers = [("Content-Type", "application/json")] ∧
    discord.clientTimeout = 10000000000 ∧
    ((c.SendDiscordNotification world d).2 = .ok () ↔
      ∃ resp, world (discord.buildRequest c d.json) = .ok resp ∧
        resp.statusCode = 204) ∧
    (∀ e, world (discord.buildRequest c d.json) = .error e →
      (c.SendDiscordNotification world d).2 = .error e) ∧
    (∀ resp, world (discord.buildRequest c d.json) = .ok resp →
      resp.statusCode ≠ 204 →
      (c.SendDiscordNotification world d).2 =
        .error ("Error response from Discord [" ++ toString resp.statusCode ++
          "] - [" ++ resp.body ++ "]")) := by
  unfold discord.NotifyConfig.SendDiscordNotification discord.jsonMarshal
  dsimp only
  cases hw : world (discord.buildRequest c d.json) with
  | error e =>
    dsimp only
    refine ⟨rfl, rfl, rfl, rfl, by decide, ?_, ?_, ?_⟩
    · simp
    · intro e' he'
      injection he' with h
      rw [h]
    · intro resp hresp
      exact absurd hresp (by simp)
  | ok resp =>
    dsimp only
    by_cases hc : resp.statusCode = 204
    · rw [if_neg (by simpa using hc)]
      refine ⟨rfl, rfl, rfl, rfl, by decide, ?_, ?_, ?_⟩
      · simp [hc]
      · intro e' he'
        exact absurd he' (by simp)
      · intro resp' hresp' hne
        injection hresp' with h
        rw [h] at hc
        exact absurd hc hne
    · rw [if_pos (by simpa using hc)]
      refine ⟨rfl, rfl, rfl, rfl, by decide, ?_, ?_, ?_⟩
      · simp [hc]
      · intro e' he'
        exact absurd he' (by simp)
      · intro resp' hresp' hne
        injection hresp' with h
        rw [h]

/-- C2 witness: the delivery characterization applied to a concrete config,
payload and transports; a 400 response is reported with status and body. -/
theorem C2_send_discord_notification_witness :
    (wetConfig.SendDiscordNotification badWorld
      (wetConfig.NewDiscord sampleResult)).2 =
      .error ("Error response from Discord [" ++ toString (400 : Int) ++
        "] - [" ++ "Bad Request" ++ "]") :=
  (C2_send_discord_notification wetConfig badWorld
      (wetConfig.NewDiscord sampleResult)).2.2.2.2.2.2.2
    { statusCode := 400, body := "Bad Request" } rfl (by decide)

/-- C3: with the dry-run flag set, `Notify` and `NotifyStat` perform no HTTP
call and emit exactly one info-level log line containing the JSON-serialized
payload. -/
theorem C3_dry_run (c : discord.NotifyConfig)
    (world : discord.HTTPRequest → Except String discord.HTTPResponse)
    (r : probe.Result) (probers : List probe.Prober) (h : c.Dry = true) :
    c.Notify world r =
      [discord.Effect.logInfo (("[" ++ c.Kind ++ "] Dry notify - ") ++
        (c.NewDiscord r).json)] ∧
    c.NotifyStat world probers =
      [discord.Effect.logInfo (("[" ++ c.Kind ++ "] Dry notify - ") ++
        (c.NewEmbeds probers).json)] ∧
    (∀ e ∈ c.Notify world r, ∀ q t, e ≠ discord.Effect.httpPost q t) ∧
    (∀ e ∈ c.NotifyStat world probers, ∀ q t, e ≠ discord.Effect.httpPost q t) := by
  have h1 : c.Notify world r =
      [discord.Effect.logInfo (("[" ++ c.Kind ++ "] Dry notify - ") ++
        (c.NewDiscord r).json)] := by
    simp [discord.NotifyConfig.Notify, h, discord.NotifyConfig.DryNotify,
      discord.jsonMarshal]
  have h2 : c.NotifyStat world probers =
      [discord.Effect.logInfo (("[" ++ c.Kind ++ "] Dry notify - ") ++
        (c.NewEmbeds probers).json)] := by
    simp [discord.NotifyConfig.NotifyStat, h, discord.NotifyConfig.DryNotifyStat,
      discord.jsonMarshal]
  refine ⟨h1, h2, ?_, ?_⟩
  · rw [h1]; intro e he q t; simp at he; subst he; simp
  · rw [h2]; intro e he q t; simp at he; subst he; simp

/-- C3 witness: the dry-run behaviour at a concrete config, result and
prober list (the transport is the always-failing one, which is never
consulted). -/
theorem C3_dry_run_witness :
    dryConfig.Notify downWorld sampleResult =
      [discord.Effect.logInfo (("[" ++ dryConfig.Kind ++ "] Dry notify - ") ++
        (dryConfig.NewDiscord sampleResult).json)] ∧
    dryConfig.NotifyStat downWorld [sampleProber] =
      [discord.Effect.logInfo (("[" ++ dryConfig.Kind ++ "] Dry notify - ") ++
        (dryConfig.NewEmbeds [sampleProber]).json)] :=
  ⟨(C3_dry_run dryConfig downWorld sampleResult [sampleProber] rfl).1,
   (C3_dry_run dryConfig downWorld sampleResult [sampleProber] rfl).2.1⟩

/-- C6: when delivery fails (and dry-run is off), `Notify` and `NotifyStat`
log the delivery error and then a second error line containing the
JSON-serialized payload (in `NotifyStat` the JSON ends up in the
`%!(EXTRA string=…)` section because of the surplus `c` argument at line 204,
but it is still part of the logged line), and neither function propagates the
failure: both return only their effect trace.  The serialization-failure
fallback branch (logging the structured payload) exists in the embedding but
is unreachable, since `json.Marshal` cannot fail on this payload type. -/
theorem C6_failure_logging (c : discord.NotifyConfig)
    (world : discord.HTTPRequest → Except String discord.HTTPResponse)
    (r : probe.Result) (probers : List probe.Prober) (e1 e2 : String)
    (hdry : c.Dry = false)
    (h1 : (c.SendDiscordNotification world (c.NewDiscord r)).2 = .error e1)
    (h2 : (c.SendDiscordNotification world (c.NewEmbeds probers)).2 = .error e2) :
    c.Notify world r =
      (c.SendDiscordNotification world (c.NewDiscord r)).1 ++
        [discord.Effect.logError e1,
         discord.Effect.logError (("Notify[" ++ c.Kind ++ "] - ") ++
           (c.NewDiscord r).json)] ∧
    c.NotifyStat world probers =
      (c.SendDiscordNotification world (c.NewEmbeds probers)).1 ++
        [discord.Effect.logError e2,
         discord.Effect.logError (("Notify[" ++ discord.goFmtConfig c ++ "] - " ++
           c.Kind ++ "%!(EXTRA string=") ++ (c.NewEmbeds probers).json ++ ")")] ∧
    (∃ pre post, ("Notify[" ++ c.Kind ++ "] - ") ++ (c.NewDiscord r).json =
      pre ++ (c.NewDiscord r).json ++ post) ∧
    (∃ pre post, ("Notify[" ++ discord.goFmtConfig c ++ "] - " ++ c.Kind ++
        "%!(EXTRA string=") ++ (c.NewEmbeds probers).json ++ ")" =
      pre ++ (c.NewEmbeds probers).json ++ post) := by
  refine ⟨?_, ?_, ?_, ?_⟩
  · simp only [discord.NotifyConfig.Notify, hdry, Bool.false_eq_true, if_false,
      h1, discord.jsonMarshal]
    simp
  · simp only [discord.NotifyConfig.NotifyStat, hdry, Bool.false_eq_true, if_false,
      h2, discord.jsonMarshal]
    simp
  · exact ⟨"Notify[" ++ c.Kind ++ "] - ", "",
      by rw [String.append_empty]⟩
  · exact ⟨"Notify[" ++ discord.goFmtConfig c ++ "] - " ++ c.Kind ++
      "%!(EXTRA string=", ")", rfl⟩

/-- C6 witness: the failure-logging behaviour at a concrete config, inputs
and an always-failing transport. -/
theorem C6_failure_logging_witness :
    wetConfig.Notify downWorld sampleResult =
      (wetConfig.SendDiscordNotification downWorld
        (wetConfig.NewDiscord sampleResult)).1 ++
        [discord.Effect.logError "connection refused",
         discord.Effect.logError (("Notify[" ++ wetConfig.Kind ++ "] - ") ++
           (wetConfig.NewDiscord sampleResult).json)] ∧
    wetConfig.NotifyStat downWorld [sampleProber] =
      (wetConfig.SendDiscordNotification downWorld
        (wetConfig.NewEmbeds [sampleProber])).1 ++
        [discord.Effect.logError "connection refused",
         discord.Effect.logError (("Notify[" ++ discord.goFmtConfig wetConfig ++
           "] - " ++ wetConfig.Kind ++ "%!(EXTRA string=") ++
           (wetConfig.NewEmbeds [sampleProber]).json ++ ")")] :=
  ⟨(C6_failure_logging wetConfig downWorld sampleResult [sampleProber]
      "connection refused" "connection refused" rfl rfl rfl).1,
   (C6_failure_logging wetConfig downWorld sampleResult [sampleProber]
      "connection refused" "connection refused" rfl rfl rfl).2.1⟩

/-- C7 counterexample: the rendered timestamp has second resolution, so for a
start time with a non-zero sub-second component, parsing the timestamp back
does not yield the same instant (the nanoseconds are lost). -/
theorem C7_timestamp_subsecond_counterexample :
    gotime.parseRFC3339
        ((wetConfig.NewDiscord subsecondResult).Embeds.head!.Timestamp) ≠
      some subsecondResult.StartTime.instant := by decide

/-- C7 (amended): the timestamp of the single-result embed is the start time
converted to UTC and rendered per RFC 3339, and parsing it back yields the
start instant truncated to whole seconds — the very same instant exactly when
the start time has no sub-second component. -/
theorem C7_timestamp_roundtrip (c : discord.NotifyConfig) (r : probe.Result)
    (h0 : 0 ≤ r.StartTime.sec) (h1 : r.StartTime.sec < 253402300800) :
    ∃ e, (c.NewDiscord r).Embeds = [e] ∧
      e.Timestamp = (r.StartTime.UTC).Format gotime.rfc3339Layout ∧
      gotime.parseRFC3339 e.Timestamp = some (r.StartTime.sec, 0) ∧
      (gotime.parseRFC3339 e.Timestamp = some r.StartTime.instant ↔
        r.StartTime.nsec = 0) := by
  have hparse : gotime.parseRFC3339
      ((r.StartTime.UTC).Format gotime.rfc3339Layout) =
      some (r.StartTime.sec, 0) := by
    have hrt := gotime.rfc3339_roundtrip (r.StartTime.UTC)
      (by simpa [gotime.GoTime.UTC] using h0)
      (by simpa [gotime.GoTime.UTC] using h1) rfl
    simpa [gotime.GoTime.Format, gotime.parseRFC3339, gotime.GoTime.UTC]
      using hrt
  refine ⟨_, rfl, rfl, hparse, ?_⟩
  rw [hparse]
  simp [gotime.GoTime.instant, eq_comm]

/-- C7 witness: the round-trip at a concrete result whose start time is the
whole second 2001-09-09T01:46:40Z. -/
theorem C7_timestamp_roundtrip_witness :
    ∃ e, (wetConfig.NewDiscord sampleResult).Embeds = [e] ∧
      e.Timestamp = (sampleResult.StartTime.UTC).Format gotime.rfc3339Layout ∧
      gotime.parseRFC3339 e.Timestamp = some (sampleResult.StartTime.sec, 0) ∧
      (gotime.parseRFC3339 e.Timestamp = some sampleResult.StartTime.instant ↔
        sampleResult.StartTime.nsec = 0) :=
  C7_timestamp_roundtrip wetConfig sampleResult (by decide) (by decide)

/-- C9: the JSON keys `encoding/json` actually derives for the `Author`
struct are `name`, `URL`, `IconURL` — not the `name`, `url`, `icon_url` of
the provider schema — because the `url`/`icon_url` struct tags are malformed
and therefore ignored; a concrete author value serializes with the wrong
keys on the wire. -/
theorem C9_author_json_keys :
    discord.authorJSONKeys = ["name", "URL", "IconURL"] ∧
    discord.authorJSONKeys ≠ ["name", "url", "icon_url"] ∧
    discord.Author.json { Name := "n", URL := "u", IconURL := "i" } =
      "\x7b\"name\":\"n\",\"URL\":\"u\",\"IconURL\":\"i\"\x7d" :=
  ⟨by decide, by decide, by decide⟩
